import Mathlib

/-!
Verification development for the scout_mcp core: a shallow embedding of
the bridge client (scout_mcp/bridge/client.py), the tool-discovery cache
(scout_mcp/tool_discovery.py) and the agent-listing TTL cache
(scout_mcp/tools/agent_tools.py), together with theorems settling the
spec's testable properties against the embedded code.

Conventions of the embedding:
- Python's single exception class ScoutBridgeError is modelled as an
  error message string carried in an Except value; the spec's error
  taxonomy (StartupTimeoutError, ProtocolError, RemoteError, ...) is
  identified by the distinct message each raise site produces.
- I/O outcomes that the Python code observes (the reply frame read from
  the worker's stdout, the ready/timeout outcome of startup, the
  bridge's answer to an agent listing) are passed to the embedded
  functions as explicit parameters, so every control path of the source
  is a computable branch of the Lean definition.
- The asyncio lock serialises calls; each call is therefore embedded as
  one atomic state transition.
- Wall-clock instants are rationals; timing statistics fields of the
  Python classes that no theorem mentions (the last-scan duration) are
  omitted.
-/

/-! ## Bridge client (scout_mcp/bridge/client.py, class ScoutBridgeClient)

State fields mirror __init__ (line 50): bridge_script_path, process
(modelled as a Bool saying whether a live process handle is held),
request_id, and _initialized (named inited here). -/

structure ScoutBridgeClient where
  bridge_script_path : String
  process : Bool
  request_id : Nat
  inited : Bool
deriving DecidableEq

/-- Model of the line-157 test `if not self.process or not self._initialized`:
true exactly when the next _send_request will invoke start() first. -/
def needs_start (c : ScoutBridgeClient) : Bool :=
  !c.process || !c.inited

/-- Model of stop() (lines 121-133): if a process handle is held, the
process is terminated (graceful with a 5s grace period, else killed; both
end with the process gone), then the handle and the initialized flag are
cleared in the finally block. With no handle held, stop is a no-op. -/
def ScoutBridgeClient.stop (c : ScoutBridgeClient) : ScoutBridgeClient :=
  if c.process then { c with process := false, inited := false } else c

/-- Outcome of the startup wait (lines 91-106): the ready marker arrives
on stderr in time, the 30s wait times out, the spawn itself raises, or
reading stderr raises (e.g. the bridge process exits before Ready). -/
inductive StartEvent where
  | ready
  | timeout
  | spawnFail (e : String)
  | readFail (e : String)
deriving DecidableEq

/-- Model of start() (lines 66-106). No-op when already initialized with a
live process; fails without touching state when the bridge script is
missing; otherwise spawns the process and waits for the ready marker,
calling stop() and failing on timeout or any other startup exception. -/
def ScoutBridgeClient.start (c : ScoutBridgeClient) (scriptExists : Bool)
    (ev : StartEvent) : ScoutBridgeClient × Except String Unit :=
  if c.inited && c.process then (c, .ok ())
  else if !scriptExists then
    (c, .error ("Scout bridge script not found at " ++ c.bridge_script_path))
  else
    match ev with
    | .spawnFail e => (c.stop, .error ("Failed to start Scout bridge: " ++ e))
    | .ready => ({ c with process := true, inited := true }, .ok ())
    | .timeout =>
        (ScoutBridgeClient.stop { c with process := true },
         .error "Scout bridge failed to start within 30 seconds. Check that Node.js and swarm-scout are installed.")
    | .readFail e =>
        (ScoutBridgeClient.stop { c with process := true },
         .error ("Failed to start Scout bridge: " ++ e))

/-- Reply frame as parsed on line 181: the optional id (response.get with
no default), the optional error object reduced to its message (with the
line-185 default already applied: a messageless error object reads as
"Unknown error"), and the optional result object (a JSON object modelled
as a string-keyed association list, line-195 default is the empty object). -/
structure BridgeResponse where
  id : Option Nat
  error : Option String
  result : Option (List (String × String))
deriving DecidableEq

/-- What the single readline of line 177 plus the json parse of line 181
can yield, together with a possible write failure on lines 172-174. -/
inductive ReadOutcome where
  | writeFail (e : String)
  | closed
  | invalidJson (e : String)
  | frame (r : BridgeResponse)
deriving DecidableEq

/-- Renders response.get with no default the way Python interpolates it
into the mismatch message of lines 190-193. -/
def fmtOptId : Option Nat → String
  | none => "None"
  | some n => toString n

/-- Model of _send_request (lines 135-202), assuming the client already
passed the line-157 start gate. The id counter is incremented first
(line 161). A write failure or an empty read raises inside the try and is
caught by the broad `except Exception` of line 199, which clears the
initialized flag and wraps the message. A json parse failure is re-raised
from its own except clause (line 197-198) and therefore does NOT clear
the flag. An error object in the frame raises the Bridge-error message
(line 186) and an id mismatch raises the mismatch message (line 190);
both of those raises are themselves caught by the same broad
`except Exception`, which clears the initialized flag and wraps them as
communication errors. A matching error-free frame returns its result. -/
def send_request (c : ScoutBridgeClient) (out : ReadOutcome) :
    ScoutBridgeClient × Except String (List (String × String)) :=
  let rid := c.request_id + 1
  let c1 := { c with request_id := rid }
  match out with
  | .writeFail e =>
      ({ c1 with inited := false }, .error ("Bridge communication error: " ++ e))
  | .closed =>
      ({ c1 with inited := false },
       .error "Bridge communication error: Bridge process closed unexpectedly")
  | .invalidJson e =>
      (c1, .error ("Invalid JSON response from bridge: " ++ e))
  | .frame r =>
      match r.error with
      | some msg =>
          ({ c1 with inited := false },
           .error ("Bridge communication error: Bridge error: " ++ msg))
      | none =>
          if r.id == some rid then
            (c1, .ok (r.result.getD []))
          else
            ({ c1 with inited := false },
             .error ("Bridge communication error: Response ID mismatch: expected "
               ++ toString rid ++ ", got " ++ fmtOptId r.id))

/-- One client-lifetime operation, for stating properties over whole
operation sequences. -/
inductive ClientOp where
  | sendOp (out : ReadOutcome)
  | stopOp
  | startOp (scriptExists : Bool) (ev : StartEvent)

/-- State transition of one operation (the result value is dropped). -/
def applyOp (c : ScoutBridgeClient) : ClientOp → ScoutBridgeClient
  | .sendOp out => (send_request c out).1
  | .stopOp => c.stop
  | .startOp ex ev => (c.start ex ev).1

/-- A freshly started, idle client used as the concrete state of the
bridge counterexamples: running process, initialized, no request sent. -/
def startedClient : ScoutBridgeClient :=
  { bridge_script_path := "scout_bridge.mjs", process := true,
    request_id := 0, inited := true }

/-! ## Tool discovery cache (scout_mcp/tool_discovery.py, class ToolDiscovery)

Python dicts are modelled as association lists with Python's dict
semantics: insertion of an existing key updates it in place, a new key is
appended, deletion filters the key out. A tool instance is modelled by the
two attributes the discovery code reads: its name property and the module
its class was defined in. A source file as seen by one discovery pass is
its path inside the tools directory, its stat mtime (none when stat raises
OSError), and what importing it yields: none when the import or reload
raises, otherwise the list of BaseTool subclasses the module defines
(instantiated members, each tagged with its defining module). -/

def dictGet {α : Type} (d : List (String × α)) (k : String) : Option α :=
  (d.find? (fun p => p.1 == k)).map (fun p => p.2)

def dictInsert {α : Type} (d : List (String × α)) (k : String) (v : α) :
    List (String × α) :=
  if (d.find? (fun p => p.1 == k)).isSome then
    d.map (fun p => if p.1 == k then (k, v) else p)
  else d ++ [(k, v)]

def dictDelete {α : Type} (d : List (String × α)) (k : String) :
    List (String × α) :=
  d.filter (fun p => p.1 != k)

structure MCPTool where
  name : String
  module : String
deriving DecidableEq

structure FsFile where
  path : String
  mtime : Option Nat
  load : Option (List MCPTool)
deriving DecidableEq

/-- State of a ToolDiscovery instance (lines 32-48): the tool registry
_tools, the mtime cache _file_mtimes mapping a path to (mtime, module
name), and the hit/miss counters. The _last_scan_time duration field is
omitted (wall-clock timing, not referenced by any property). -/
structure ToolDiscovery where
  tools : List (String × MCPTool)
  file_mtimes : List (String × Nat × String)
  cache_hits : Nat
  cache_misses : Nat
deriving DecidableEq

def ToolDiscovery.init : ToolDiscovery := ⟨[], [], 0, 0⟩

/-- The name.startswith of line 78, specialised to the one-character
marker the source tests for: true exactly when the file name begins with
an underscore. Spelled on the character list so the kernel can evaluate
it. -/
def startsWithUnderscore (p : String) : Bool :=
  match p.data with
  | [] => false
  | c :: _ => c == '_'

/-- Path.stem for a name matching the *.py glob: drop the 3-character
extension. Spelled on the character list so the kernel can evaluate it. -/
def pyStem (p : String) : String := ⟨p.data.take (p.data.length - 3)⟩

/-- Module name assigned on line 124. -/
def moduleOf (p : String) : String := "scout_mcp.tools." ++ pyStem p

/-- Model of _remove_tools_from_module (lines 157-167): drop every
registry entry whose tool's class was defined in the given module. -/
def remove_tools_from_module (tools : List (String × MCPTool))
    (module_name : String) : List (String × MCPTool) :=
  tools.filter (fun p => p.2.module != module_name)

/-- The line-78 exclusion filter: names starting with an underscore and
base_tool.py are skipped. -/
def eligibleFiles (fs : List FsFile) : List FsFile :=
  fs.filter (fun f => !(startsWithUnderscore f.path) && f.path != "base_tool.py")

/-- The current_files set of line 74/81 (paths only). -/
def currentPaths (fs : List FsFile) : List String :=
  (eligibleFiles fs).map (fun f => f.path)

/-- The lines 83-99 per-file check: a file lands in modified_files when
its stat succeeds and it is either untracked (new) or tracked with a
different mtime; a stat failure hits the OSError handler and the file is
skipped (it is still in current_files, added on line 81 before the try). -/
def isModified (st : ToolDiscovery) (f : FsFile) : Bool :=
  match f.mtime with
  | none => false
  | some m =>
      match dictGet st.file_mtimes f.path with
      | none => true
      | some pr => pr.1 != m

/-- The line-102 set difference: tracked paths no longer present. -/
def deletedPaths (st : ToolDiscovery) (fs : List FsFile) : List String :=
  (st.file_mtimes.map (fun p => p.1)).filter
    (fun p => !((currentPaths fs).contains p))

/-- Model of the deleted-files loop (lines 105-110), kept in source
order: the mtime entry is deleted FIRST (line 106), and only then is the
module name looked up in the same dict with a (None, None) default
(line 108) — so the lookup always misses and the line-110 removal of the
file's tools never runs. -/
def processDeleted (st : ToolDiscovery) (deleted : List String) :
    ToolDiscovery :=
  deleted.foldl
    (fun s f =>
      let s1 := { s with file_mtimes := dictDelete s.file_mtimes f }
      match dictGet s1.file_mtimes f with
      | some pr => { s1 with tools := remove_tools_from_module s1.tools pr.2 }
      | none => s1)
    st

/-- Model of the per-file reload body (lines 123-152), in source order:
old tools of the module are removed first (line 128), then the module is
imported or reloaded — a raise here hits the except of line 149 and the
file is skipped with its old tools already gone and its mtime entry not
updated. On import success, every member class defined in this module is
instantiated and inserted under its name (lines 137-144), then the mtime
cache is updated from a second stat (line 147) — if that stat raises, the
except skips only the mtime update. -/
def processFile (st : ToolDiscovery) (f : FsFile) : ToolDiscovery :=
  let module_name := moduleOf f.path
  let st1 := { st with tools := remove_tools_from_module st.tools module_name }
  match f.load with
  | none => st1
  | some members =>
      let st2 := (members.filter (fun t => t.module == module_name)).foldl
        (fun s t => { s with tools := dictInsert s.tools t.name t }) st1
      match f.mtime with
      | none => st2
      | some m =>
          { st2 with file_mtimes := dictInsert st2.file_mtimes f.path (m, module_name) }

/-- Model of discover_tools (lines 50-155). The directory listing is the
fs parameter; a missing tools directory returns the empty dict without
touching state (line 68). Otherwise new/modified and deleted items are
computed, deleted items are processed (lines 101-110), the cache-hit test
of line 113 requires nothing to reload and a non-empty registry, and a
miss reprocesses exactly the modified files (all current files under
force_reload). -/
def discover_scan (st : ToolDiscovery) (fs : List FsFile)
    (force_reload : Bool) : ToolDiscovery :=
  let modified := (eligibleFiles fs).filter (fun f => isModified st f)
  let deleted := deletedPaths st fs
  let needs_reload := force_reload || !modified.isEmpty || !deleted.isEmpty
  let st1 := processDeleted st deleted
  if !needs_reload && !st1.tools.isEmpty then
    { st1 with cache_hits := st1.cache_hits + 1 }
  else
    let st2 := { st1 with cache_misses := st1.cache_misses + 1 }
    let toProcess := if force_reload then eligibleFiles fs else modified
    toProcess.foldl processFile st2

/-- The full discover_tools call: every return path with an existing
directory returns the post-scan state's _tools dict, so the returned
snapshot is the scanned state's registry. -/
def discover_tools (st : ToolDiscovery) (fs : List FsFile)
    (force_reload : Bool) (dirExists : Bool) :
    ToolDiscovery × List (String × MCPTool) :=
  if !dirExists then (st, [])
  else
    let st1 := discover_scan st fs force_reload
    (st1, st1.tools)

/-! ## Agent-listing TTL cache (scout_mcp/tools/agent_tools.py,
class AgentToolGenerator) -/

structure AgentDesc where
  agentId : String
  agentName : String
  description : String
deriving DecidableEq

/-- The worker's agent.list payload: the global and project scoped
descriptor lists (dict .get with default empty list already applied). -/
structure AgentListData where
  globalAgents : List AgentDesc
  projectAgents : List AgentDesc
deriving DecidableEq

/-- State of an AgentToolGenerator (lines 31-40): the snapshot
_agent_cache and its capture instant _cache_timestamp. -/
structure AgentToolGenerator where
  agent_cache : Option (List AgentDesc)
  cache_timestamp : Option ℚ
deriving DecidableEq

/-- CACHE_TTL of line 29, in seconds. -/
def CACHE_TTL : ℚ := 300

/-- Model of _is_cache_valid (lines 42-46): false when either field is
unset, else the snapshot age must be strictly below the TTL. -/
def is_cache_valid (g : AgentToolGenerator) (now : ℚ) : Bool :=
  match g.agent_cache, g.cache_timestamp with
  | some _, some ts => decide (now - ts < CACHE_TTL)
  | _, _ => false

/-- Model of _list_agents_async (lines 53-88). The bridge interaction
(get_bridge plus list_agents) is the fetch parameter: an error value
stands for any ScoutBridgeError or other exception raised in the try
block, which the except clauses turn into an empty returned list with the
cache untouched. A valid cache short-circuits before any bridge use. On a
successful fetch the global then project descriptor lists are
concatenated, the snapshot and its timestamp are replaced, and the merged
list is returned. The third component records whether the bridge was
consulted at all. -/
def list_agents_async (g : AgentToolGenerator) (now : ℚ)
    (fetch : Except String AgentListData) :
    AgentToolGenerator × List AgentDesc × Bool :=
  if is_cache_valid g now then
    (g, g.agent_cache.getD [], false)
  else
    match fetch with
    | .error _ => (g, [], true)
    | .ok data =>
        let agents := data.globalAgents ++ data.projectAgents
        ({ agent_cache := some agents, cache_timestamp := some now }, agents, true)

/-! ## Concrete fixtures used by the theorems -/

def toolA : MCPTool := ⟨"tool_a", "scout_mcp.tools.a"⟩

def toolB : MCPTool := ⟨"tool_b", "scout_mcp.tools.b"⟩

def fileA : FsFile := ⟨"a.py", some 1, some [toolA]⟩

def fileB : FsFile := ⟨"b.py", some 1, some [toolB]⟩

def fileA_broken : FsFile := ⟨"a.py", some 2, none⟩

def agent0 : AgentDesc := ⟨"code-reviewer", "Code Reviewer", "reviews code"⟩

def agent1 : AgentDesc := ⟨"doc-writer", "Doc Writer", "writes docs"⟩

/-! ## Helper lemmas about the bridge state transitions -/

theorem stop_request_id (c : ScoutBridgeClient) :
    c.stop.request_id = c.request_id := by
  unfold ScoutBridgeClient.stop; split <;> rfl

theorem stop_process (c : ScoutBridgeClient) : c.stop.process = false := by
  unfold ScoutBridgeClient.stop
  split
  · rfl
  · simp_all

theorem start_request_id (c : ScoutBridgeClient) (ex : Bool) (ev : StartEvent) :
    (c.start ex ev).1.request_id = c.request_id := by
  unfold ScoutBridgeClient.start
  split
  · rfl
  · split
    · rfl
    · cases ev <;> simp [stop_request_id]

theorem send_request_request_id (c : ScoutBridgeClient) (out : ReadOutcome) :
    (send_request c out).1.request_id = c.request_id + 1 := by
  cases out with
  | writeFail e => rfl
  | closed => rfl
  | invalidJson e => rfl
  | frame r =>
      cases hr : r.error with
      | some m => simp [send_request, hr]
      | none =>
          by_cases hid : (r.id == some (c.request_id + 1)) = true <;>
            simp [send_request, hr, hid]

theorem applyOp_request_id_le (c : ScoutBridgeClient) (op : ClientOp) :
    c.request_id ≤ (applyOp c op).request_id := by
  cases op with
  | sendOp out => simp [applyOp, send_request_request_id]
  | stopOp => simp [applyOp, stop_request_id]
  | startOp ex ev => simp [applyOp, start_request_id]

/-! ## Theorems for the claims -/

/-- C1. The claim reads: a reply with a mismatching id fails the call
with a ProtocolError and leaves the session usable, the not-ready flag
not being set. On the embedded code the second half is false: the
mismatch raise of client.py line 190 is caught by the broad except of
line 199, which sets _initialized to False, so the very next call takes
the line-157 branch and runs start() again. Evaluated at the failing
input (outstanding id 1, reply id 2): the call fails with the wrapped
mismatch message AND the resulting state has the initialized flag
cleared, so needs_start is true. -/
theorem send_request_id_mismatch_sets_not_ready :
    send_request startedClient (.frame ⟨some 2, none, none⟩)
      = (⟨"scout_bridge.mjs", true, 1, false⟩,
         .error "Bridge communication error: Response ID mismatch: expected 1, got 2")
    ∧ needs_start (send_request startedClient (.frame ⟨some 2, none, none⟩)).1 = true :=
  ⟨rfl, rfl⟩

/-- C4. The claim reads: an error reply fails the call with the worker's
message surfaced and the session is kept alive. On the embedded code the
message is surfaced (wrapped by the line-199 handler), but the session is
NOT kept alive: the raise of client.py line 186 is caught by the broad
except of line 199, which clears _initialized, so the next call triggers
start(). Evaluated at the failing input (reply carrying error message
"boom"): the call fails with a message containing "boom" and the state
has needs_start true. -/
theorem send_request_error_reply_sets_not_ready :
    send_request startedClient (.frame ⟨some 1, some "boom", none⟩)
      = (⟨"scout_bridge.mjs", true, 1, false⟩,
         .error "Bridge communication error: Bridge error: boom")
    ∧ needs_start (send_request startedClient (.frame ⟨some 1, some "boom", none⟩)).1 = true :=
  ⟨rfl, rfl⟩

/-- C9. For every reply frame carrying an error object, the call fails
with the remote error message (wrapped by the communication-error
handler), whatever id the frame carries and whatever the outstanding
request id is: the line-184 error check runs before the line-189 id
check, so the id never influences the outcome of an error reply. -/
theorem send_request_error_checked_before_id
    (c : ScoutBridgeClient) (r : BridgeResponse) (msg : String)
    (h : r.error = some msg) :
    (send_request c (.frame r)).2
      = .error ("Bridge communication error: Bridge error: " ++ msg) := by
  simp [send_request, h]

/-- Witness for C9 at a concrete input: a frame whose id (7) differs from
the id the request was sent under (1) still fails with the remote error
message, by the theorem itself. -/
theorem send_request_error_checked_before_id_witness :
    (send_request startedClient (.frame ⟨some 7, some "remote failure", none⟩)).2
      = .error ("Bridge communication error: Bridge error: " ++ "remote failure") :=
  send_request_error_checked_before_id startedClient ⟨some 7, some "remote failure", none⟩
    "remote failure" rfl

/-- C10. The request-sequence counter is bumped by exactly one on every
_send_request (line 161), is untouched by stop() (lines 121-133 clear
only the process handle and the initialized flag) and by start(), and is
therefore never reset: over any sequence of send, stop and start
operations the counter never decreases, so no request id is ever reused
across session restarts. -/
theorem request_counter_monotone_never_reset
    (c : ScoutBridgeClient) (out : ReadOutcome) (ex : Bool) (ev : StartEvent)
    (ops : List ClientOp) :
    (send_request c out).1.request_id = c.request_id + 1
    ∧ c.stop.request_id = c.request_id
    ∧ c.stop.process = false
    ∧ (c.process = true → c.stop.inited = false)
    ∧ (c.start ex ev).1.request_id = c.request_id
    ∧ c.request_id ≤ (ops.foldl applyOp c).request_id := by
  refine ⟨send_request_request_id c out, stop_request_id c, stop_process c,
    ?_, start_request_id c ex ev, ?_⟩
  · intro hp; simp [ScoutBridgeClient.stop, hp]
  · induction ops generalizing c with
    | nil => simp
    | cons op rest ih =>
        exact le_trans (applyOp_request_id_le c op) (ih (applyOp c op))

/-- C7. Scenario A: when the ready marker never arrives within the 30s
startup deadline, start() fails with the startup-timeout error (the
StartupTimeoutError of the spec taxonomy, raised on client.py lines
98-103), after calling stop() in a state holding the freshly spawned
process handle — so the worker process is terminated, the handle is
cleared and the initialized flag is cleared. The hypothesis excludes the
line-73 no-op branch of an already-running session, where no startup wait
happens at all. -/
theorem start_timeout_terminates_and_clears
    (c : ScoutBridgeClient) (h : (c.inited && c.process) = false) :
    (c.start true .timeout).2
      = .error "Scout bridge failed to start within 30 seconds. Check that Node.js and swarm-scout are installed."
    ∧ (c.start true .timeout).1.process = false
    ∧ (c.start true .timeout).1.inited = false
    ∧ (c.start true .timeout).1.request_id = c.request_id := by
  simp [ScoutBridgeClient.start, ScoutBridgeClient.stop, h]

/-- Witness for C7: a never-started client (no process, not initialized)
hits the timeout and ends terminated and cleared, by the theorem. -/
theorem start_timeout_terminates_and_clears_witness :
    (ScoutBridgeClient.start ⟨"scout_bridge.mjs", false, 0, false⟩ true .timeout).2
      = .error "Scout bridge failed to start within 30 seconds. Check that Node.js and swarm-scout are installed."
    ∧ (ScoutBridgeClient.start ⟨"scout_bridge.mjs", false, 0, false⟩ true .timeout).1.process = false
    ∧ (ScoutBridgeClient.start ⟨"scout_bridge.mjs", false, 0, false⟩ true .timeout).1.inited = false
    ∧ (ScoutBridgeClient.start ⟨"scout_bridge.mjs", false, 0, false⟩ true .timeout).1.request_id
        = (⟨"scout_bridge.mjs", false, 0, false⟩ : ScoutBridgeClient).request_id :=
  start_timeout_terminates_and_clears ⟨"scout_bridge.mjs", false, 0, false⟩ (by decide)

/-- Helper: with the tools directory present, discover_tools returns the
post-scan state's registry as the snapshot. -/
theorem discover_tools_snd (st : ToolDiscovery) (fs : List FsFile) (fr : Bool) :
    (discover_tools st fs fr true).2 = (discover_tools st fs fr true).1.tools := by
  rw [discover_tools]
  simp

/-- C2. The claim reads: an item that fails to rebuild is skipped,
leaving its previous registry entries untouched. On the embedded code
this is false: the per-file body of tool_discovery.py removes the
module's old tools (line 128) BEFORE attempting the import (lines
131-134), so when the import raises, the line-149 except skips the file
with its previous entries already evicted. Evaluated at the failing
input: a registry built from a.py holding tool_a, then a discovery pass
in which a.py has a new mtime and its reload raises — the pass returns an
empty registry instead of keeping tool_a. -/
theorem discover_failed_rebuild_evicts_previous_entry :
    (discover_tools ToolDiscovery.init [fileA] false true).2 = [("tool_a", toolA)]
    ∧ (discover_tools (discover_tools ToolDiscovery.init [fileA] false true).1
        [fileA_broken] false true).2 = [] := by
  constructor <;> rfl

/-- C3. The claim reads: deleting source file A makes the next discover()
remove every entry built from A, returning only B's entries. On the
embedded code this is false: the deleted-files loop of tool_discovery.py
deletes the mtime entry (line 106) BEFORE looking the module name up in
the same dict (line 108), so the lookup always yields the (None, None)
default and the line-110 tool removal never runs. Evaluated at the
failing input: a registry built from a.py and b.py, then a pass with a.py
deleted — the returned registry still holds tool_a alongside tool_b, even
though a.py's mtime tracking entry is gone. The repo's own
test_deleted_file_detection (test_tool_caching.py lines 175-208) asserts
the registry shrinks to one tool here. -/
theorem discover_deleted_file_entries_not_removed :
    (discover_tools ToolDiscovery.init [fileA, fileB] false true).2
      = [("tool_a", toolA), ("tool_b", toolB)]
    ∧ (discover_tools (discover_tools ToolDiscovery.init [fileA, fileB] false true).1
        [fileB] false true).2
      = [("tool_a", toolA), ("tool_b", toolB)]
    ∧ (discover_tools (discover_tools ToolDiscovery.init [fileA, fileB] false true).1
        [fileB] false true).1.file_mtimes
      = [("b.py", 1, "scout_mcp.tools.b")] := by
  refine ⟨rfl, rfl, rfl⟩

/-- C5 counterexample. The claim, as stated, quantifies over every pair
of consecutive discover() calls with no filesystem change. It fails when
the registry is empty: on an existing but empty tools directory both
calls fall through the line-113 hit test (which also requires a non-empty
registry, as spec section 4.2 step 4 states), so the second call
increments the miss counter, not the hit counter, even though the
returned registries are identical. -/
theorem discover_empty_dir_second_call_is_miss :
    (discover_tools ToolDiscovery.init [] false true).2 = []
    ∧ (discover_tools (discover_tools ToolDiscovery.init [] false true).1 [] false true).2 = []
    ∧ (discover_tools (discover_tools ToolDiscovery.init [] false true).1
        [] false true).1.cache_hits = 0
    ∧ (discover_tools (discover_tools ToolDiscovery.init [] false true).1
        [] false true).1.cache_misses = 2 := by
  refine ⟨rfl, rfl, rfl, rfl⟩

/-- C5 amended. Two consecutive discover() calls with no filesystem
changes in between and forceReload false return identical registries and
the second call increments the hit counter, not the miss counter,
PROVIDED the first call produced a non-empty registry and left every
current file cleanly recorded: no current file still counts as
new/modified against the post-call mtime cache (true whenever no file
failed to stat or rebuild during the first pass) and every tracked path
is still present. The hypotheses are exactly the line-113 hit conditions
that the claim's universal statement omitted. -/
theorem discover_idempotent_nonempty_clean (st : ToolDiscovery) (fs : List FsFile)
    (h1 : (discover_tools st fs false true).1.tools ≠ [])
    (h2 : ∀ f ∈ eligibleFiles fs, isModified (discover_tools st fs false true).1 f = false)
    (h3 : ∀ p ∈ (discover_tools st fs false true).1.file_mtimes.map (fun q => q.1),
        p ∈ currentPaths fs) :
    discover_tools (discover_tools st fs false true).1 fs false true
      = ({ (discover_tools st fs false true).1 with
            cache_hits := (discover_tools st fs false true).1.cache_hits + 1 },
         (discover_tools st fs false true).1.tools)
    ∧ (discover_tools st fs false true).2 = (discover_tools st fs false true).1.tools := by
  set st1 := (discover_tools st fs false true).1 with hst1
  have hmod : (eligibleFiles fs).filter (fun f => isModified st1 f) = [] := by
    apply List.filter_eq_nil_iff.mpr
    intro f hf
    simp [h2 f hf]
  have hdel : deletedPaths st1 fs = [] := by
    unfold deletedPaths
    apply List.filter_eq_nil_iff.mpr
    intro p hp
    simp
    exact h3 p hp
  have hne : st1.tools.isEmpty = false := by
    cases hts : st1.tools with
    | nil => exact absurd hts h1
    | cons a l => rfl
  have hscan : discover_scan st1 fs false
      = { st1 with cache_hits := st1.cache_hits + 1 } := by
    rw [discover_scan]
    simp [hmod, hdel, processDeleted, hne]
  constructor
  · rw [discover_tools]
    simp [hscan]
  · exact discover_tools_snd st fs false

/-- Witness for the amended C5 at a concrete input: one healthy tool
file, discovered from a cold cache; the second pass returns the same
one-entry registry and bumps only the hit counter, by the theorem. -/
theorem discover_idempotent_nonempty_clean_witness :
    discover_tools (discover_tools ToolDiscovery.init [fileA] false true).1 [fileA] false true
      = ({ (discover_tools ToolDiscovery.init [fileA] false true).1 with
            cache_hits := (discover_tools ToolDiscovery.init [fileA] false true).1.cache_hits + 1 },
         (discover_tools ToolDiscovery.init [fileA] false true).1.tools)
    ∧ (discover_tools ToolDiscovery.init [fileA] false true).2
        = (discover_tools ToolDiscovery.init [fileA] false true).1.tools :=
  discover_idempotent_nonempty_clean ToolDiscovery.init [fileA]
    (by decide) (by decide) (by decide)

/-- C6. An agent-listing snapshot captured at instant T: a call at any
instant strictly before T plus the 300s TTL is answered from the snapshot
with the cached list, the state unchanged and the bridge not consulted;
a call at or after T plus TTL consults the bridge and, with the listing
it returns, replaces both the snapshot (global descriptors first, then
project ones) and its timestamp with the call instant. -/
theorem list_agents_ttl_expiry (cache : List AgentDesc) (T t : ℚ)
    (fetch : Except String AgentListData) (data : AgentListData) :
    (t - T < CACHE_TTL →
      list_agents_async ⟨some cache, some T⟩ t fetch
        = (⟨some cache, some T⟩, cache, false))
    ∧ (CACHE_TTL ≤ t - T →
      list_agents_async ⟨some cache, some T⟩ t (.ok data)
        = (⟨some (data.globalAgents ++ data.projectAgents), some t⟩,
           data.globalAgents ++ data.projectAgents, true)) := by
  constructor
  · intro h
    simp [list_agents_async, is_cache_valid, h]
  · intro h
    have hv : ¬ (t - T < CACHE_TTL) := not_lt.mpr h
    simp [list_agents_async, is_cache_valid, hv]

/-- Witness for C6 with TTL 300: a snapshot taken at instant 0 is served
from cache at instant 299 and refetched and replaced at instant 300, by
the theorem. -/
theorem list_agents_ttl_expiry_witness :
    list_agents_async ⟨some [agent0], some 0⟩ 299 (.ok ⟨[agent0], [agent1]⟩)
      = (⟨some [agent0], some 0⟩, [agent0], false)
    ∧ list_agents_async ⟨some [agent0], some 0⟩ 300 (.ok ⟨[agent0], [agent1]⟩)
      = (⟨some ([agent0] ++ [agent1]), some 300⟩, [agent0] ++ [agent1], true) :=
  ⟨(list_agents_ttl_expiry [agent0] 0 299 (.ok ⟨[agent0], [agent1]⟩)
      ⟨[agent0], [agent1]⟩).1 (by norm_num [CACHE_TTL]),
   (list_agents_ttl_expiry [agent0] 0 300 (.ok ⟨[agent0], [agent1]⟩)
      ⟨[agent0], [agent1]⟩).2 (by norm_num [CACHE_TTL])⟩

/-- C8. Whenever a listAgents call actually consults the bridge (the
snapshot is absent or expired) and the bridge interaction fails, the call
returns the empty descriptor list with the cache untouched: the except
clauses of agent_tools.py lines 83-88 convert every bridge failure into
an empty result instead of propagating the exception (the embedded
function returns normally on every input). -/
theorem list_agents_transport_failure_empty (g : AgentToolGenerator) (now : ℚ)
    (e : String) (h : is_cache_valid g now = false) :
    list_agents_async g now (.error e) = (g, [], true) := by
  simp [list_agents_async, h]

/-- Witness for C8: a generator with no snapshot hits a failing bridge
and returns the empty list, by the theorem. -/
theorem list_agents_transport_failure_empty_witness :
    list_agents_async ⟨none, none⟩ 0 (.error "bridge down") = (⟨none, none⟩, [], true) :=
  list_agents_transport_failure_empty ⟨none, none⟩ 0 "bridge down" rfl

/-- Witness for C10 at concrete inputs: the started client's counter goes
0 to 1 on a send, stop leaves it at 0 while clearing the handle and flag,
start leaves it at 0, and a send-then-stop trace never decreases it — all
by the theorem, the one conditional conjunct discharged at the started
client whose process flag is true. -/
theorem request_counter_monotone_never_reset_witness :
    (send_request startedClient .closed).1.request_id = startedClient.request_id + 1
    ∧ startedClient.stop.request_id = startedClient.request_id
    ∧ startedClient.stop.process = false
    ∧ startedClient.stop.inited = false
    ∧ (startedClient.start true .ready).1.request_id = startedClient.request_id
    ∧ startedClient.request_id
        ≤ ([ClientOp.sendOp .closed, ClientOp.stopOp].foldl applyOp startedClient).request_id :=
  ⟨(request_counter_monotone_never_reset startedClient .closed true .ready
      [ClientOp.sendOp .closed, ClientOp.stopOp]).1,
   (request_counter_monotone_never_reset startedClient .closed true .ready
      [ClientOp.sendOp .closed, ClientOp.stopOp]).2.1,
   (request_counter_monotone_never_reset startedClient .closed true .ready
      [ClientOp.sendOp .closed, ClientOp.stopOp]).2.2.1,
   (request_counter_monotone_never_reset startedClient .closed true .ready
      [ClientOp.sendOp .closed, ClientOp.stopOp]).2.2.2.1 rfl,
   (request_counter_monotone_never_reset startedClient .closed true .ready
      [ClientOp.sendOp .closed, ClientOp.stopOp]).2.2.2.2.1,
   (request_counter_monotone_never_reset startedClient .closed true .ready
      [ClientOp.sendOp .closed, ClientOp.stopOp]).2.2.2.2.2⟩
